import Mathlib

set_option maxHeartbeats 1000000

/-! Shallow embedding of the ctm factory library:
    PerTypeStorage (src/include/factory/PerTypeStorage.h) and
    Factory / FactoryMixin / TypeIdGetter / Registrator
    (src/include/factory/Factory.h).

    C++ template parameters (the interface type and the implementation
    type) are modelled by their type names (String).  The process-wide
    map `PerTypeStorage::m_data` is explicit state (`PTState`) threaded
    through every operation.  A storage key, computed in C++ by
    concatenating `typeid(ClassType).name()` and
    `typeid(ValueType).name()`, is modelled as the pair of the two types
    themselves, since `typeid(T).name()` equality coincides with type
    equality within a module.  A `std::function` generator is modelled
    by the instance it constructs when invoked (all generators of the
    library capture nothing and construct a fresh instance of a fixed
    concrete type). -/

/-- FactoryBase::TypeId is std::string. -/
abbrev TypeId := String

/-- A constructed instance, as observed through a shared_ptr<Interface>:
    its concrete (dynamic) type name, the interface it was produced for,
    and whether its concrete type derives FactoryMixin (hence
    TypeIdGetter<Interface>), which is what the dynamic_cast in
    TypeIdGetter::typeId tests. -/
structure Obj where
  concrete : String
  iface : String
  hasMixin : Bool
deriving DecidableEq, Repr

/-- Factory<I>::Generator = std::function<shared_ptr<I>()>.  Modelled by
    the instance a call to it constructs. -/
structure Generator where
  produces : Obj
deriving DecidableEq, Repr

/-- Invoking a generator (`it->second()` in Factory::newInstance). -/
def Generator.invoke (g : Generator) : Obj := g.produces

/-- The owner (ClassType) component of a PerTypeStorage key: the library
    uses Factory<Interface> and FactoryMixin<Type, Interface> as owners. -/
inductive OwnerType where
  | factory (iface : String)
  | factoryMixin (impl iface : String)
deriving DecidableEq, Repr

/-- Factory<I>::Registry = std::map<TypeId, Generator>, as an association
    list (iteration order is irrelevant to every claim). -/
abbrev Registry := List (TypeId × Generator)

/-- The value (ValueType) component of a PerTypeStorage key: the library
    stores Factory<I>::Registry tables and TypeId strings. -/
inductive ValueKind where
  | registryOf (iface : String)
  | stringT
deriving DecidableEq, Repr

/-- Contents of one storage cell (the `void*` in PerTypeStorage::Data,
    seen through the reinterpret_cast at its true type). -/
inductive PVal where
  | registry (t : Registry)
  | str (s : String)
deriving DecidableEq, Repr

/-- The default-constructed value of a cell (`new ValueType` in
    PerTypeStorage::value): an empty map or an empty string. -/
def ValueKind.defaultVal : ValueKind → PVal
  | .registryOf _ => .registry []
  | .stringT => .str ""

/-- A storage key: the (ClassType, ValueType) pair. -/
abbrev StorageKey := OwnerType × ValueKind

/-- The state of PerTypeStorage::m_data. -/
abbrev PTState := List (StorageKey × PVal)

/-- d.find(key) on the storage map. -/
def PTState.lookupKey (k : StorageKey) : PTState → Option PVal
  | [] => none
  | (k', v) :: rest => if k' = k then some v else PTState.lookupKey k rest

/-- Writing through the reference returned by PerTypeStorage::value
    (insert-or-assign at the key). -/
def PTState.setCell (k : StorageKey) (v : PVal) : PTState → PTState
  | [] => [(k, v)]
  | (k', v') :: rest =>
      if k' = k then (k, v) :: rest else (k', v') :: PTState.setCell k v rest

/-- Number of cells stored under a key. -/
def PTState.countKey (k : StorageKey) : PTState → Nat
  | [] => 0
  | (k', _) :: rest => (if k' = k then 1 else 0) + PTState.countKey k rest

/-- PerTypeStorage::value<ClassType, ValueType>(): looks the key up in
    m_data; on a miss it allocates a default-constructed cell, stores it
    and returns it; on a hit it returns the stored cell. -/
def PerTypeStorage.value (k : StorageKey) (st : PTState) : PVal × PTState :=
  match PTState.lookupKey k st with
  | some v => (v, st)
  | none => (k.2.defaultVal, (k, k.2.defaultVal) :: st)

/-- Reading a registry cell at its true type (the reinterpret_cast in
    PerTypeStorage::value; the str case is never reached by the library). -/
def PVal.asRegistry : PVal → Registry
  | .registry t => t
  | .str _ => []

/-- Reading a TypeId cell at its true type. -/
def PVal.asString : PVal → String
  | .str s => s
  | .registry _ => ""

/-- r.find(typeId) on a registry table. -/
def Registry.findGen (tid : TypeId) : Registry → Option Generator
  | [] => none
  | (t, g) :: rest => if t = tid then some g else Registry.findGen tid rest

/-- r[typeId] = generator on a registry table (std::map operator[]
    followed by assignment: insert or overwrite). -/
def Registry.store (tid : TypeId) (g : Generator) : Registry → Registry
  | [] => [(tid, g)]
  | (t, g') :: rest =>
      if t = tid then (tid, g) :: rest else (t, g') :: Registry.store tid g rest

/-- The storage key addressing Factory<iface>'s registry table:
    PerTypeStorage::value< Factory<Interface>, Registry >(). -/
def Factory.registryKey (iface : String) : StorageKey :=
  (.factory iface, .registryOf iface)

/-- Factory<iface>::registry(): the shared table for the interface,
    lazily created in PerTypeStorage. -/
def Factory.registry (iface : String) (st : PTState) : Registry × PTState :=
  ((PerTypeStorage.value (Factory.registryKey iface) st).1.asRegistry,
   (PerTypeStorage.value (Factory.registryKey iface) st).2)

/-- Factory<iface>::registerType(typeId, generator):
    asserts the id is absent (modelled as the None result: the assertion
    aborts before any mutation), then inserts. -/
def Factory.registerType (iface : String) (tid : TypeId) (g : Generator)
    (st : PTState) : Option PTState :=
  if Registry.findGen tid (Factory.registry iface st).1 = none then
    some (PTState.setCell (Factory.registryKey iface)
      (.registry (Registry.store tid g (Factory.registry iface st).1))
      (Factory.registry iface st).2)
  else
    none

/-- Factory<iface>::newInstance(typeId): looks the id up in the table and
    either throws a runtime_error (the Except.error) or invokes the stored
    generator.  The third component records every instance constructed
    during the call. -/
def Factory.newInstance (iface : String) (tid : TypeId) (st : PTState) :
    Except String Obj × PTState × List Obj :=
  match Registry.findGen tid (Factory.registry iface st).1 with
  | none =>
      (.error ("Failed to find type \x27" ++ tid ++ "\x27 in registry"),
       (Factory.registry iface st).2, [])
  | some g => (.ok g.invoke, (Factory.registry iface st).2, [g.invoke])

/-- Factory<iface>::registeredTypes(): the keys of the table, in table
    order. -/
def Factory.registeredTypes (iface : String) (st : PTState) :
    List TypeId × PTState :=
  ((Factory.registry iface st).1.map (fun e => e.1),
   (Factory.registry iface st).2)

/-- Factory<iface>::isTypeRegistered(typeId): registry().count(typeId) > 0. -/
def Factory.isTypeRegistered (iface : String) (tid : TypeId) (st : PTState) :
    Bool × PTState :=
  ((Registry.findGen tid (Factory.registry iface st).1).isSome,
   (Factory.registry iface st).2)

/-- Pure read of the registry table contents for an interface, without
    the lazy cell creation performed by Factory::registry (an absent cell
    reads as the empty table it would be created as). -/
def Factory.tableOf (iface : String) (st : PTState) : Registry :=
  ((PTState.lookupKey (Factory.registryKey iface) st).getD
    (PVal.registry [])).asRegistry

/-- The storage key addressing the TypeId cell of FactoryMixin<impl, iface>:
    PerTypeStorage::value< FactoryMixin<Type, Interface>, TypeId >(). -/
def FactoryMixin.mixinKey (impl iface : String) : StorageKey :=
  (.factoryMixin impl iface, .stringT)

/-- FactoryMixin<impl, iface>::newInstance():
    std::make_shared<Type>(), seen through the interface. -/
def FactoryMixin.newInstance (impl iface : String) : Obj :=
  { concrete := impl, iface := iface, hasMixin := true }

/-- The generator &FactoryMixin<Type, Interface>::newInstance that a
    Registrator registers. -/
def FactoryMixin.generator (impl iface : String) : Generator :=
  { produces := FactoryMixin.newInstance impl iface }

/-- FactoryMixin<impl, iface>::Registrator::Registrator(typeId):
    calls Factory::registerType(typeId, newInstance), then assigns typeId
    into the cell returned by PerTypeStorage::value (which lazily creates
    it first).  An assertion failure inside registerType aborts the whole
    construction (the None result). -/
def Registrator.construct (impl iface : String) (tid : TypeId)
    (st : PTState) : Option PTState :=
  match Factory.registerType iface tid (FactoryMixin.generator impl iface) st with
  | none => none
  | some st1 =>
      some (PTState.setCell (FactoryMixin.mixinKey impl iface) (.str tid)
        (PerTypeStorage.value (FactoryMixin.mixinKey impl iface) st1).2)

/-- FactoryMixin<impl, iface>::staticTypeId(): reads the TypeId cell
    (lazily creating it, default-constructed, when absent). -/
def FactoryMixin.staticTypeId (impl iface : String) (st : PTState) :
    TypeId × PTState :=
  ((PerTypeStorage.value (FactoryMixin.mixinKey impl iface) st).1.asString,
   (PerTypeStorage.value (FactoryMixin.mixinKey impl iface) st).2)

/-- The virtual typeId() override provided by FactoryMixin: it returns
    staticTypeId() of the object's concrete type. -/
def Obj.virtualTypeId (o : Obj) (st : PTState) : TypeId × PTState :=
  FactoryMixin.staticTypeId o.concrete o.iface st

/-- Success of dynamic_cast<const TypeIdGetter<Interface>*>(o.get()):
    the object's concrete type derives FactoryMixin<_, Interface> for
    this very interface. -/
def Obj.supportsTypeIdGetter (o : Obj) (iface : String) : Bool :=
  o.hasMixin && o.iface == iface

/-- TypeIdGetter<iface>::typeId(o): dynamic_cast to the capability; on
    success dispatch to the virtual typeId(), otherwise return the
    default-constructed (empty) TypeId. -/
def TypeIdGetter.typeId (iface : String) (o : Obj) (st : PTState) :
    TypeId × PTState :=
  if o.supportsTypeIdGetter iface then o.virtualTypeId st else ("", st)

/-- One call of the public registry interface. -/
inductive Op where
  | registerType (iface : String) (tid : TypeId) (g : Generator)
  | newInstance (iface : String) (tid : TypeId)
  | registeredTypes (iface : String)
  | isTypeRegistered (iface : String) (tid : TypeId)
deriving DecidableEq, Repr

/-- The state transition of one registry call (None: the duplicate-id
    assertion aborted the program). -/
def Op.apply (st : PTState) : Op → Option PTState
  | .registerType iface tid g => Factory.registerType iface tid g st
  | .newInstance iface tid => some (Factory.newInstance iface tid st).2.1
  | .registeredTypes iface => some (Factory.registeredTypes iface st).2
  | .isTypeRegistered iface tid => some (Factory.isTypeRegistered iface tid st).2

/-- Running a sequence of registry calls. -/
def runOps : List Op → PTState → Option PTState
  | [], st => some st
  | op :: rest, st =>
      match Op.apply st op with
      | none => none
      | some st' => runOps rest st'

/-! Helper lemmas about the storage state. -/

theorem lookupKey_setCell (k k' : StorageKey) (v : PVal) (st : PTState) :
    PTState.lookupKey k (PTState.setCell k' v st)
      = if k' = k then some v else PTState.lookupKey k st := by
  induction st with
  | nil => simp [PTState.setCell, PTState.lookupKey]
  | cons hd tl ih =>
      obtain ⟨k0, v0⟩ := hd
      by_cases h0 : k0 = k'
      · subst h0
        by_cases h1 : k0 = k <;>
          simp [PTState.setCell, PTState.lookupKey, h1]
      · by_cases h1 : k0 = k
        · subst h1
          have : ¬ k' = k0 := fun h => h0 h.symm
          simp [PTState.setCell, PTState.lookupKey, h0, this]
        · simp [PTState.setCell, PTState.lookupKey, h0, h1, ih]

theorem lookupKey_value (k k' : StorageKey) (st : PTState) :
    PTState.lookupKey k ((PerTypeStorage.value k' st).2)
      = if k' = k then some ((PerTypeStorage.value k' st).1)
        else PTState.lookupKey k st := by
  unfold PerTypeStorage.value
  cases h : PTState.lookupKey k' st with
  | some v =>
      by_cases hk : k' = k
      · subst hk; simp [h]
      · simp [hk]
  | none =>
      by_cases hk : k' = k
      · subst hk; simp [PTState.lookupKey, h]
      · simp [PTState.lookupKey, hk]

theorem value_of_lookup_some (k : StorageKey) (v : PVal) (st : PTState)
    (h : PTState.lookupKey k st = some v) :
    PerTypeStorage.value k st = (v, st) := by
  unfold PerTypeStorage.value
  rw [h]

theorem countKey_eq_zero_of_lookup_none (k : StorageKey) (st : PTState)
    (h : PTState.lookupKey k st = none) :
    PTState.countKey k st = 0 := by
  induction st with
  | nil => rfl
  | cons hd tl ih =>
      obtain ⟨k0, v0⟩ := hd
      by_cases h0 : k0 = k
      · subst h0; simp [PTState.lookupKey] at h
      · simp [PTState.lookupKey, h0] at h
        simp [PTState.countKey, h0, ih h]

theorem one_le_countKey_of_lookup_some (k : StorageKey) (v : PVal)
    (st : PTState) (h : PTState.lookupKey k st = some v) :
    1 ≤ PTState.countKey k st := by
  induction st with
  | nil => simp [PTState.lookupKey] at h
  | cons hd tl ih =>
      obtain ⟨k0, v0⟩ := hd
      by_cases h0 : k0 = k
      · simp [PTState.countKey, h0]
      · simp [PTState.lookupKey, h0] at h
        simp [PTState.countKey, h0]
        exact ih h

/-! Helper lemmas about registry tables. -/

theorem findGen_store_self (tid : TypeId) (g : Generator) (r : Registry) :
    Registry.findGen tid (Registry.store tid g r) = some g := by
  induction r with
  | nil => simp [Registry.store, Registry.findGen]
  | cons hd tl ih =>
      obtain ⟨t, g'⟩ := hd
      by_cases h : t = tid
      · subst h; simp [Registry.store, Registry.findGen]
      · simp [Registry.store, Registry.findGen, h, ih]

theorem mem_map_fst_store (tid t : TypeId) (g : Generator) (r : Registry)
    (h : t ∈ r.map (fun e => e.1)) :
    t ∈ (Registry.store tid g r).map (fun e => e.1) := by
  induction r with
  | nil => simp at h
  | cons hd tl ih =>
      obtain ⟨t0, g0⟩ := hd
      by_cases h0 : t0 = tid
      · subst h0
        simp at h
        rcases h with h | h
        · subst h; simp [Registry.store]
        · simp [Registry.store]
          exact Or.inr h
      · simp at h
        rcases h with h | h
        · subst h; simp [Registry.store, h0]
        · simp [Registry.store, h0]
          exact Or.inr (by simpa using ih (by simpa using h))

theorem registry_fst (iface : String) (st : PTState) :
    (Factory.registry iface st).1 = Factory.tableOf iface st := by
  unfold Factory.registry Factory.tableOf PerTypeStorage.value
  cases h : PTState.lookupKey (Factory.registryKey iface) st with
  | some v => simp [h]
  | none => simp [h, Factory.registryKey, ValueKind.defaultVal, PVal.asRegistry]

theorem tableOf_value (iface : String) (k : StorageKey) (st : PTState) :
    Factory.tableOf iface ((PerTypeStorage.value k st).2)
      = Factory.tableOf iface st := by
  unfold Factory.tableOf
  rw [lookupKey_value]
  by_cases hk : k = Factory.registryKey iface
  · subst hk
    unfold PerTypeStorage.value
    cases h : PTState.lookupKey (Factory.registryKey iface) st with
    | some v => simp [h]
    | none => simp [h, Factory.registryKey, ValueKind.defaultVal, PVal.asRegistry]
  · simp [hk]

theorem tableOf_setCell (iface : String) (k : StorageKey) (v : PVal)
    (st : PTState) :
    Factory.tableOf iface (PTState.setCell k v st)
      = if k = Factory.registryKey iface then v.asRegistry
        else Factory.tableOf iface st := by
  unfold Factory.tableOf
  rw [lookupKey_setCell]
  by_cases hk : k = Factory.registryKey iface <;> simp [hk]

theorem registryKey_ne_mixinKey (iface impl iface' : String) :
    Factory.registryKey iface ≠ FactoryMixin.mixinKey impl iface' := by
  simp [Factory.registryKey, FactoryMixin.mixinKey]

theorem registryKey_inj (iface iface' : String)
    (h : Factory.registryKey iface = Factory.registryKey iface') :
    iface = iface' := by
  simpa [Factory.registryKey] using congrArg Prod.fst h

theorem registry_snd (iface : String) (st : PTState) :
    (Factory.registry iface st).2
      = (PerTypeStorage.value (Factory.registryKey iface) st).2 := rfl

/-- Unfolding of a successful registerType call: the guard held, the
    interface's table gained the binding, and every other cell of the
    storage is untouched. -/
theorem registerType_some (iface : String) (tid : TypeId) (g : Generator)
    (st st' : PTState)
    (h : Factory.registerType iface tid g st = some st') :
    Registry.findGen tid (Factory.tableOf iface st) = none
    ∧ Factory.tableOf iface st'
        = Registry.store tid g (Factory.tableOf iface st)
    ∧ ∀ k, k ≠ Factory.registryKey iface →
        PTState.lookupKey k st' = PTState.lookupKey k st := by
  unfold Factory.registerType at h
  rw [registry_fst] at h
  by_cases hg : Registry.findGen tid (Factory.tableOf iface st) = none
  · rw [if_pos hg] at h
    injection h with h
    refine ⟨hg, ?_, ?_⟩
    · rw [← h, tableOf_setCell]
      simp [PVal.asRegistry]
    · intro k hk
      have hne : ¬ Factory.registryKey iface = k := fun he => hk he.symm
      rw [← h, lookupKey_setCell, if_neg hne, registry_snd,
        lookupKey_value, if_neg hne]
  · rw [if_neg hg] at h
    exact absurd h (by simp)

/-- newInstance at a registered id: the generator found in the table is
    invoked, the state is unchanged (the registry cell already exists),
    and exactly one instance is constructed. -/
theorem newInstance_of_found (iface : String) (tid : TypeId) (g : Generator)
    (st : PTState)
    (h : Registry.findGen tid (Factory.tableOf iface st) = some g) :
    Factory.newInstance iface tid st = (.ok g.invoke, st, [g.invoke]) := by
  have hcell : ∃ v, PTState.lookupKey (Factory.registryKey iface) st
      = some v := by
    cases hc : PTState.lookupKey (Factory.registryKey iface) st with
    | some v => exact ⟨v, rfl⟩
    | none =>
        unfold Factory.tableOf at h
        rw [hc] at h
        simp [PVal.asRegistry, Registry.findGen] at h
  obtain ⟨v, hv⟩ := hcell
  unfold Factory.newInstance
  rw [registry_fst, h, registry_snd, value_of_lookup_some _ _ _ hv]

/-! The claims. -/

/-- C1: PerTypeStorage::value<Owner, Value>() default-constructs the
    addressed storage cell on its first call (a miss returns the default
    value), every later call for the same (Owner, Value) pair returns a
    reference to that identical cell (an immediate repetition returns the
    same value and leaves the storage unchanged, and the cell is
    undisturbed by accesses to any other key), and at most one cell ever
    exists per key (a key stored at most once is stored exactly once
    after the access). -/
theorem claim_C1 (k k' : StorageKey) (st : PTState) :
    (PTState.lookupKey k st = none →
       (PerTypeStorage.value k st).1 = k.2.defaultVal)
    ∧ PerTypeStorage.value k ((PerTypeStorage.value k st).2)
        = ((PerTypeStorage.value k st).1, (PerTypeStorage.value k st).2)
    ∧ (k' ≠ k →
       (PerTypeStorage.value k
          ((PerTypeStorage.value k'
            ((PerTypeStorage.value k st).2)).2)).1
         = (PerTypeStorage.value k st).1)
    ∧ (PTState.countKey k st ≤ 1 →
       PTState.countKey k ((PerTypeStorage.value k st).2) = 1) := by
  have hself : PTState.lookupKey k ((PerTypeStorage.value k st).2)
      = some ((PerTypeStorage.value k st).1) := by
    rw [lookupKey_value]
    simp
  refine ⟨?_, ?_, ?_, ?_⟩
  · intro h
    unfold PerTypeStorage.value
    rw [h]
  · rw [value_of_lookup_some _ _ _ hself]
  · intro hk
    have h2 : PTState.lookupKey k
        ((PerTypeStorage.value k' ((PerTypeStorage.value k st).2)).2)
        = some ((PerTypeStorage.value k st).1) := by
      rw [lookupKey_value, if_neg hk, hself]
    rw [value_of_lookup_some _ _ _ h2]
  · intro hc
    cases h : PTState.lookupKey k st with
    | some v =>
        simp only [value_of_lookup_some _ _ _ h]
        have := one_le_countKey_of_lookup_some k v st h
        omega
    | none =>
        unfold PerTypeStorage.value
        rw [h]
        simp [PTState.countKey, countKey_eq_zero_of_lookup_none k st h]

theorem claim_C1_witness :
    ((PerTypeStorage.value (OwnerType.factory "I", ValueKind.registryOf "I")
        []).1 = PVal.registry [])
    ∧ (PerTypeStorage.value (OwnerType.factory "I", ValueKind.registryOf "I")
        ((PerTypeStorage.value (OwnerType.factory "J", ValueKind.registryOf "J")
          ((PerTypeStorage.value (OwnerType.factory "I", ValueKind.registryOf "I")
            []).2)).2)).1
        = (PerTypeStorage.value (OwnerType.factory "I", ValueKind.registryOf "I")
            []).1
    ∧ PTState.countKey (OwnerType.factory "I", ValueKind.registryOf "I")
        ((PerTypeStorage.value (OwnerType.factory "I", ValueKind.registryOf "I")
          []).2) = 1 := by
  have h := claim_C1 (OwnerType.factory "I", ValueKind.registryOf "I")
    (OwnerType.factory "J", ValueKind.registryOf "J") []
  exact ⟨h.1 rfl, h.2.2.1 (by decide), h.2.2.2 (by decide)⟩

/-- C2: Factory::newInstance(id) fails with the "Failed to find type"
    runtime_error exactly when id is absent from interface I's table;
    when a generator is stored for id, it invokes that generator and
    returns the generator's result. -/
theorem claim_C2 (iface tid : String) (st : PTState) :
    ((Factory.newInstance iface tid st).1
        = Except.error
            ("Failed to find type \x27" ++ tid ++ "\x27 in registry")
      ↔ Registry.findGen tid (Factory.registry iface st).1 = none)
    ∧ ∀ g, Registry.findGen tid (Factory.registry iface st).1 = some g →
        (Factory.newInstance iface tid st).1 = Except.ok g.invoke := by
  unfold Factory.newInstance
  cases h : Registry.findGen tid (Factory.registry iface st).1 with
  | none => simp [h]
  | some g => simp [h]

theorem claim_C2_witness :
    (Factory.newInstance "I" "A"
      [((OwnerType.factory "I", ValueKind.registryOf "I"),
        PVal.registry
          [("A", { produces :=
              { concrete := "A", iface := "I", hasMixin := true } })])]).1
      = Except.ok (Generator.invoke
          { produces :=
              { concrete := "A", iface := "I", hasMixin := true } }) := by
  exact (claim_C2 "I" "A"
    [((OwnerType.factory "I", ValueKind.registryOf "I"),
      PVal.registry
        [("A", { produces :=
            { concrete := "A", iface := "I", hasMixin := true } })])]).2
    { produces := { concrete := "A", iface := "I", hasMixin := true } }
    (by decide)

/-- C3: a second registerType call with an identifier that is already
    registered in the interface's table is rejected deterministically:
    the duplicate-id assertion aborts before any mutation (no resulting
    state), the generator stored by the first registration is not
    overwritten, and there are no two successful registrations of the
    same identifier. -/
theorem claim_C3 (iface tid : String) (g g' : Generator) (st st1 : PTState)
    (h : Factory.registerType iface tid g st = some st1) :
    Factory.registerType iface tid g' st1 = none
    ∧ Registry.findGen tid (Factory.tableOf iface st1) = some g := by
  obtain ⟨hnone, htab, -⟩ := registerType_some iface tid g st st1 h
  have hfind : Registry.findGen tid (Factory.tableOf iface st1) = some g := by
    rw [htab]
    exact findGen_store_self tid g (Factory.tableOf iface st)
  refine ⟨?_, hfind⟩
  unfold Factory.registerType
  rw [registry_fst, hfind]
  simp

theorem claim_C3_witness :
    Factory.registerType "I" "A"
      { produces := { concrete := "B", iface := "I", hasMixin := true } }
      [((OwnerType.factory "I", ValueKind.registryOf "I"),
        PVal.registry
          [("A", { produces :=
              { concrete := "A", iface := "I", hasMixin := true } })])] = none
    ∧ Registry.findGen "A" (Factory.tableOf "I"
        [((OwnerType.factory "I", ValueKind.registryOf "I"),
          PVal.registry
            [("A", { produces :=
                { concrete := "A", iface := "I", hasMixin := true } })])])
      = some { produces :=
          { concrete := "A", iface := "I", hasMixin := true } } := by
  exact claim_C3 "I" "A"
    { produces := { concrete := "A", iface := "I", hasMixin := true } }
    { produces := { concrete := "B", iface := "I", hasMixin := true } }
    []
    [((OwnerType.factory "I", ValueKind.registryOf "I"),
      PVal.registry
        [("A", { produces :=
            { concrete := "A", iface := "I", hasMixin := true } })])]
    (by decide)

/-- C4: round-trip. After a Registrator registers implementation impl
    under identifier tid for an interface, Factory::newInstance(tid)
    yields an instance of impl, and TypeIdGetter::typeId on the returned
    shared pointer recovers exactly tid. -/
theorem claim_C4 (impl iface tid : String) (st st1 : PTState)
    (h : Registrator.construct impl iface tid st = some st1) :
    (Factory.newInstance iface tid st1).1
      = Except.ok (FactoryMixin.newInstance impl iface)
    ∧ (TypeIdGetter.typeId iface (FactoryMixin.newInstance impl iface)
        (Factory.newInstance iface tid st1).2.1).1 = tid := by
  unfold Registrator.construct at h
  cases hreg : Factory.registerType iface tid
      (FactoryMixin.generator impl iface) st with
  | none =>
      rw [hreg] at h
      exact absurd h (by simp)
  | some stA =>
      rw [hreg] at h
      simp only [Option.some.injEq] at h
      obtain ⟨-, htabA, -⟩ := registerType_some iface tid
        (FactoryMixin.generator impl iface) st stA hreg
      have hne : ¬ FactoryMixin.mixinKey impl iface
          = Factory.registryKey iface :=
        fun he => registryKey_ne_mixinKey iface impl iface he.symm
      have htab1 : Factory.tableOf iface st1
          = Registry.store tid (FactoryMixin.generator impl iface)
              (Factory.tableOf iface st) := by
        rw [← h, tableOf_setCell, if_neg hne, tableOf_value, htabA]
      have hfind : Registry.findGen tid (Factory.tableOf iface st1)
          = some (FactoryMixin.generator impl iface) := by
        rw [htab1]
        exact findGen_store_self _ _ _
      have hnew := newInstance_of_found iface tid
        (FactoryMixin.generator impl iface) st1 hfind
      have hmix : PTState.lookupKey (FactoryMixin.mixinKey impl iface) st1
          = some (PVal.str tid) := by
        rw [← h, lookupKey_setCell]
        simp
      constructor
      · rw [hnew]
        rfl
      · rw [hnew]
        show (TypeIdGetter.typeId iface
          (FactoryMixin.newInstance impl iface) st1).1 = tid
        unfold TypeIdGetter.typeId
        rw [if_pos (by simp [Obj.supportsTypeIdGetter,
          FactoryMixin.newInstance])]
        show (FactoryMixin.staticTypeId impl iface st1).1 = tid
        unfold FactoryMixin.staticTypeId
        rw [value_of_lookup_some _ _ _ hmix]
        rfl

theorem claim_C4_witness :
    (Factory.newInstance "I" "X"
      [((OwnerType.factoryMixin "A" "I", ValueKind.stringT), PVal.str "X"),
       ((OwnerType.factory "I", ValueKind.registryOf "I"),
        PVal.registry [("X", FactoryMixin.generator "A" "I")])]).1
      = Except.ok (FactoryMixin.newInstance "A" "I")
    ∧ (TypeIdGetter.typeId "I" (FactoryMixin.newInstance "A" "I")
        (Factory.newInstance "I" "X"
          [((OwnerType.factoryMixin "A" "I", ValueKind.stringT), PVal.str "X"),
           ((OwnerType.factory "I", ValueKind.registryOf "I"),
            PVal.registry [("X", FactoryMixin.generator "A" "I")])]).2.1).1
      = "X" := by
  exact claim_C4 "A" "I" "X" []
    [((OwnerType.factoryMixin "A" "I", ValueKind.stringT), PVal.str "X"),
     ((OwnerType.factory "I", ValueKind.registryOf "I"),
      PVal.registry [("X", FactoryMixin.generator "A" "I")])]
    (by decide)

/-- C5: isolation. For two distinct interfaces, the registry tables live
    in distinct storage cells, and after registering the same identifier
    for both interfaces, newInstance on each interface invokes exactly
    the generator registered for that interface. -/
theorem claim_C5 (ia ib tid : String) (ga gb : Generator)
    (st st1 st2 : PTState)
    (hab : ia ≠ ib)
    (h1 : Factory.registerType ia tid ga st = some st1)
    (h2 : Factory.registerType ib tid gb st1 = some st2) :
    Factory.registryKey ia ≠ Factory.registryKey ib
    ∧ (Factory.newInstance ia tid st2).1 = Except.ok ga.invoke
    ∧ (Factory.newInstance ib tid st2).1 = Except.ok gb.invoke := by
  have hkey : Factory.registryKey ia ≠ Factory.registryKey ib :=
    fun he => hab (registryKey_inj ia ib he)
  obtain ⟨-, htab1, -⟩ := registerType_some ia tid ga st st1 h1
  obtain ⟨-, htab2, hoth2⟩ := registerType_some ib tid gb st1 st2 h2
  have ha2 : Factory.tableOf ia st2 = Factory.tableOf ia st1 := by
    unfold Factory.tableOf
    rw [hoth2 _ hkey]
  have hfa : Registry.findGen tid (Factory.tableOf ia st2) = some ga := by
    rw [ha2, htab1]
    exact findGen_store_self _ _ _
  have hfb : Registry.findGen tid (Factory.tableOf ib st2) = some gb := by
    rw [htab2]
    exact findGen_store_self _ _ _
  exact ⟨hkey,
    by rw [newInstance_of_found ia tid ga st2 hfa],
    by rw [newInstance_of_found ib tid gb st2 hfb]⟩

theorem claim_C5_witness :
    Factory.registryKey "IA" ≠ Factory.registryKey "IB"
    ∧ (Factory.newInstance "IA" "X"
        [((OwnerType.factory "IB", ValueKind.registryOf "IB"),
          PVal.registry [("X", FactoryMixin.generator "B" "IB")]),
         ((OwnerType.factory "IA", ValueKind.registryOf "IA"),
          PVal.registry [("X", FactoryMixin.generator "A" "IA")])]).1
        = Except.ok (Generator.invoke (FactoryMixin.generator "A" "IA"))
    ∧ (Factory.newInstance "IB" "X"
        [((OwnerType.factory "IB", ValueKind.registryOf "IB"),
          PVal.registry [("X", FactoryMixin.generator "B" "IB")]),
         ((OwnerType.factory "IA", ValueKind.registryOf "IA"),
          PVal.registry [("X", FactoryMixin.generator "A" "IA")])]).1
        = Except.ok (Generator.invoke (FactoryMixin.generator "B" "IB")) := by
  exact claim_C5 "IA" "IB" "X"
    (FactoryMixin.generator "A" "IA") (FactoryMixin.generator "B" "IB")
    []
    [((OwnerType.factory "IA", ValueKind.registryOf "IA"),
      PVal.registry [("X", FactoryMixin.generator "A" "IA")])]
    [((OwnerType.factory "IB", ValueKind.registryOf "IB"),
      PVal.registry [("X", FactoryMixin.generator "B" "IB")]),
     ((OwnerType.factory "IA", ValueKind.registryOf "IA"),
      PVal.registry [("X", FactoryMixin.generator "A" "IA")])]
    (by decide) (by decide) (by decide)

/-- C6: completeness. For every registry state, registeredTypes() returns
    exactly the identifiers currently registered for the interface: an
    identifier is in the returned sequence precisely when
    isTypeRegistered reports it registered. -/
theorem claim_C6 (iface tid : String) (st : PTState) :
    tid ∈ (Factory.registeredTypes iface st).1
      ↔ (Factory.isTypeRegistered iface tid st).1 = true := by
  have hmem : ∀ r : Registry,
      tid ∈ r.map (fun e => e.1)
        ↔ (Registry.findGen tid r).isSome = true := by
    intro r
    induction r with
    | nil => simp [Registry.findGen]
    | cons hd tl ih =>
        obtain ⟨t, g⟩ := hd
        by_cases h : t = tid
        · subst h
          simp [Registry.findGen]
        · have h' : tid ≠ t := fun he => h he.symm
          simp [Registry.findGen, h, h', ih]
  unfold Factory.registeredTypes Factory.isTypeRegistered
  exact hmem _

/-- C7: TypeIdGetter::typeId(o) dispatches to the underlying object's
    virtual typeId() when the object exposes the identity capability
    (the dynamic_cast succeeds), which equals
    FactoryMixin::staticTypeId of the object's concrete type; otherwise
    it returns the empty identifier as a normal non-error result. -/
theorem claim_C7 (iface : String) (o : Obj) (st : PTState) :
    (o.supportsTypeIdGetter iface = true →
       TypeIdGetter.typeId iface o st = o.virtualTypeId st
       ∧ (TypeIdGetter.typeId iface o st).1
           = (FactoryMixin.staticTypeId o.concrete o.iface st).1)
    ∧ (o.supportsTypeIdGetter iface = false →
       TypeIdGetter.typeId iface o st = ("", st)) := by
  unfold TypeIdGetter.typeId
  cases h : o.supportsTypeIdGetter iface with
  | true => simp [h, Obj.virtualTypeId]
  | false => simp [h]

theorem claim_C7_witness :
    TypeIdGetter.typeId "I"
        { concrete := "A", iface := "I", hasMixin := true } []
      = Obj.virtualTypeId
          { concrete := "A", iface := "I", hasMixin := true } []
    ∧ TypeIdGetter.typeId "I"
        { concrete := "A", iface := "J", hasMixin := true } []
      = ("", ([] : PTState)) := by
  exact ⟨((claim_C7 "I"
      { concrete := "A", iface := "I", hasMixin := true } []).1
      (by decide)).1,
    (claim_C7 "I"
      { concrete := "A", iface := "J", hasMixin := true } []).2
      (by decide)⟩

/-- C8 counterexample: called on the empty storage (the registry cell for
    the interface does not exist yet), newInstance with an unregistered
    id does fail with the unknown-id error and invokes no generator, but
    it does NOT leave the program state unchanged: registry() lazily
    allocates the empty table cell, so the storage gains an entry. -/
theorem claim_C8_counterexample :
    (Factory.newInstance "I" "X" []).1
      = Except.error ("Failed to find type \x27X\x27 in registry")
    ∧ (Factory.newInstance "I" "X" []).2.1 ≠ ([] : PTState) := by
  exact ⟨rfl, by decide⟩

/-- C8 (amended): for every identifier absent from the interface's table,
    newInstance fails with the unknown-identifier error, invokes no
    generator (no instance is constructed), leaves the contents of every
    interface's registry table unchanged and every storage cell other
    than the lazily created registry cell unchanged; when the registry
    cell already exists, the program state is fully unchanged. -/
theorem claim_C8_amended (iface tid : String) (st : PTState)
    (h : Registry.findGen tid (Factory.tableOf iface st) = none) :
    (Factory.newInstance iface tid st).1
      = Except.error ("Failed to find type \x27" ++ tid ++ "\x27 in registry")
    ∧ (Factory.newInstance iface tid st).2.2 = []
    ∧ (∀ iface', Factory.tableOf iface' (Factory.newInstance iface tid st).2.1
        = Factory.tableOf iface' st)
    ∧ (∀ k, k ≠ Factory.registryKey iface →
        PTState.lookupKey k (Factory.newInstance iface tid st).2.1
          = PTState.lookupKey k st)
    ∧ ((PTState.lookupKey (Factory.registryKey iface) st).isSome = true →
        (Factory.newInstance iface tid st).2.1 = st) := by
  have hnew : Factory.newInstance iface tid st
      = (Except.error
          ("Failed to find type \x27" ++ tid ++ "\x27 in registry"),
         (PerTypeStorage.value (Factory.registryKey iface) st).2, []) := by
    unfold Factory.newInstance
    rw [registry_fst, h, registry_snd]
  refine ⟨by rw [hnew], by rw [hnew], ?_, ?_, ?_⟩
  · intro iface'
    rw [hnew]
    exact tableOf_value iface' _ st
  · intro k hk
    rw [hnew]
    show PTState.lookupKey k
        ((PerTypeStorage.value (Factory.registryKey iface) st).2)
      = PTState.lookupKey k st
    rw [lookupKey_value, if_neg (fun he => hk he.symm)]
  · intro hs
    rw [hnew]
    cases hc : PTState.lookupKey (Factory.registryKey iface) st with
    | none =>
        rw [hc] at hs
        simp at hs
    | some v =>
        show (PerTypeStorage.value (Factory.registryKey iface) st).2 = st
        rw [value_of_lookup_some _ _ _ hc]

theorem claim_C8_amended_witness :
    (Factory.newInstance "I" "X" []).1
      = Except.error ("Failed to find type \x27" ++ "X" ++ "\x27 in registry")
    ∧ (Factory.newInstance "I" "X" []).2.2 = []
    ∧ Factory.tableOf "I" (Factory.newInstance "I" "X" []).2.1
        = Factory.tableOf "I" [] := by
  have h := claim_C8_amended "I" "X" [] rfl
  exact ⟨h.1, h.2.1, h.2.2.1 "I"⟩

/-- If one registry call transforms the state, every identifier present
    in some interface's table stays present. -/
theorem apply_mono (op : Op) (st st1 : PTState) (iface : String)
    (tid : TypeId) (h : Op.apply st op = some st1)
    (hm : tid ∈ (Factory.tableOf iface st).map (fun e => e.1)) :
    tid ∈ (Factory.tableOf iface st1).map (fun e => e.1) := by
  cases op with
  | registerType i t g =>
      simp only [Op.apply] at h
      obtain ⟨-, htab, hoth⟩ := registerType_some i t g st st1 h
      by_cases hif : i = iface
      · subst hif
        rw [htab]
        exact mem_map_fst_store t tid g _ hm
      · have hkey : Factory.registryKey iface ≠ Factory.registryKey i :=
          fun he => hif (registryKey_inj i iface he.symm)
        have hsame : Factory.tableOf iface st1 = Factory.tableOf iface st := by
          unfold Factory.tableOf
          rw [hoth _ hkey]
        rw [hsame]
        exact hm
  | newInstance i t =>
      simp only [Op.apply, Option.some.injEq] at h
      have h2 : (Factory.newInstance i t st).2.1
          = (PerTypeStorage.value (Factory.registryKey i) st).2 := by
        unfold Factory.newInstance
        cases hf : Registry.findGen t (Factory.registry i st).1 <;> rfl
      rw [← h, h2, tableOf_value]
      exact hm
  | registeredTypes i =>
      simp only [Op.apply, Option.some.injEq] at h
      have h2 : (Factory.registeredTypes i st).2
          = (PerTypeStorage.value (Factory.registryKey i) st).2 := rfl
      rw [← h, h2, tableOf_value]
      exact hm
  | isTypeRegistered i t =>
      simp only [Op.apply, Option.some.injEq] at h
      have h2 : (Factory.isTypeRegistered i t st).2
          = (PerTypeStorage.value (Factory.registryKey i) st).2 := rfl
      rw [← h, h2, tableOf_value]
      exact hm

/-- C9: monotonic growth. Over every sequence of the four registry
    operations that runs to completion, an identifier present in an
    interface's table at the start is still present at the end: no
    operation ever removes an entry. -/
theorem claim_C9 (ops : List Op) (st st' : PTState)
    (h : runOps ops st = some st') (iface : String) (tid : TypeId)
    (hm : tid ∈ (Factory.tableOf iface st).map (fun e => e.1)) :
    tid ∈ (Factory.tableOf iface st').map (fun e => e.1) := by
  revert st
  induction ops with
  | nil =>
      intro st h hm
      simp only [runOps, Option.some.injEq] at h
      rw [← h]
      exact hm
  | cons op rest ih =>
      intro st h hm
      simp only [runOps] at h
      cases happ : Op.apply st op with
      | none =>
          rw [happ] at h
          simp at h
      | some st1 =>
          rw [happ] at h
          exact ih st1 h (apply_mono op st st1 iface tid happ hm)

theorem claim_C9_witness :
    "A" ∈ (Factory.tableOf "I"
      [((OwnerType.factory "I", ValueKind.registryOf "I"),
        PVal.registry [("A", FactoryMixin.generator "A" "I"),
                       ("B", FactoryMixin.generator "B" "I")])]).map
      (fun e => e.1) := by
  exact claim_C9
    [Op.registerType "I" "B" (FactoryMixin.generator "B" "I"),
     Op.newInstance "I" "A", Op.isTypeRegistered "I" "A"]
    [((OwnerType.factory "I", ValueKind.registryOf "I"),
      PVal.registry [("A", FactoryMixin.generator "A" "I")])]
    [((OwnerType.factory "I", ValueKind.registryOf "I"),
      PVal.registry [("A", FactoryMixin.generator "A" "I"),
                     ("B", FactoryMixin.generator "B" "I")])]
    (by decide) "I" "A" (by decide)

/-- C10: before any Registrator for the pair (impl, iface) has run (the
    TypeId cell is either still absent or holds its default-constructed
    empty value), FactoryMixin::staticTypeId() returns the empty string,
    and so does the virtual typeId() reached through TypeIdGetter on an
    instance of impl. -/
theorem claim_C10 (impl iface : String) (st : PTState)
    (h : PTState.lookupKey (FactoryMixin.mixinKey impl iface) st = none
       ∨ PTState.lookupKey (FactoryMixin.mixinKey impl iface) st
           = some (PVal.str "")) :
    (FactoryMixin.staticTypeId impl iface st).1 = ""
    ∧ (TypeIdGetter.typeId iface (FactoryMixin.newInstance impl iface) st).1
        = "" := by
  have hs : (FactoryMixin.staticTypeId impl iface st).1 = "" := by
    unfold FactoryMixin.staticTypeId
    cases h with
    | inl h =>
        unfold PerTypeStorage.value
        rw [h]
        rfl
    | inr h =>
        rw [value_of_lookup_some _ _ _ h]
        rfl
  refine ⟨hs, ?_⟩
  unfold TypeIdGetter.typeId
  rw [if_pos (by simp [Obj.supportsTypeIdGetter, FactoryMixin.newInstance])]
  exact hs

theorem claim_C10_witness :
    (FactoryMixin.staticTypeId "A" "I" []).1 = ""
    ∧ (TypeIdGetter.typeId "I" (FactoryMixin.newInstance "A" "I") []).1
        = "" :=
  claim_C10 "A" "I" [] (Or.inl rfl)
